import Mathlib

/-!
Verification of the device session and log-forwarding subsystem of
OnlineSanity (src/server.js), shallowly embedded in Lean 4.

The embedding keeps the source's names where Lean allows it:
strings stay strings (JS `toLowerCase` / `trim` / `split` become
character-list functions that the kernel can evaluate), timestamps
become `Int` milliseconds, the process-wide mutable maps become
association lists threaded through step functions, and every external
effect (process execution, TCP bind) is a parameter or an event
recorded in a ledger.
-/

namespace OnlineSanity

/-! JS string primitives, kernel-computable -/

/-- JS `s.toLowerCase()` (ASCII case mapping, which is all the serials
and status strings of the source use). -/
def jsToLower (s : String) : String :=
  String.mk (s.data.map Char.toLower)

/-- JS `s.trim()`: strip leading and trailing whitespace. -/
def jsTrim (s : String) : String :=
  String.mk (((s.data.dropWhile Char.isWhitespace).reverse.dropWhile
    Char.isWhitespace).reverse)

/-- `charsStartWith hs needle`: `needle` is a leading segment of
`hs`. -/
def charsStartWith : List Char → List Char → Bool
  | _, [] => true
  | [], _ :: _ => false
  | c :: cs, d :: ds => c == d && charsStartWith cs ds

/-- `charsContain hs needle`: `needle` occurs contiguously in `hs`. -/
def charsContain : List Char → List Char → Bool
  | [], needle => needle.isEmpty
  | c :: cs, needle => charsStartWith (c :: cs) needle || charsContain cs needle

/-- JS `a.includes(b)`: substring containment. -/
def jsIncludes (a b : String) : Bool :=
  charsContain a.data b.data

/-- Split a character list at `\n` (JS `split(/\r?\n/)`; the optional
`\r` is whitespace and is consumed by the `trim`/`split(/\s+/)` that
every use applies to each line, so splitting at `\n` alone is
faithful). -/
def splitLinesAux : List Char → List Char → List String
  | [], acc => [String.mk acc.reverse]
  | c :: rest, acc =>
    if c = '\n' then String.mk acc.reverse :: splitLinesAux rest []
    else splitLinesAux rest (c :: acc)

/-- JS `s.split(/\r?\n/)`. -/
def jsSplitLines (s : String) : List String :=
  splitLinesAux s.data []

/-- Split a character list at runs of whitespace, dropping empty
pieces. -/
def splitWsAux : List Char → List Char → List String
  | [], [] => []
  | [], acc => [String.mk acc.reverse]
  | c :: rest, acc =>
    if c.isWhitespace then
      match acc with
      | [] => splitWsAux rest []
      | _ => String.mk acc.reverse :: splitWsAux rest []
    else splitWsAux rest (c :: acc)

/-- JS `s.split(/\s+/)` on an already-trimmed string. -/
def jsSplitWs (s : String) : List String :=
  splitWsAux s.data []

/-! Data model -/

/-- One entry of a device enumeration: `{ id, status }` as parsed by
`getCachedDevices` and the status handler (src/server.js lines 247,
386). -/
structure Device where
  id : String
  status : String
deriving DecidableEq, Repr

/-- `devices.filter(d => d.status.toLowerCase() === 'device')`
(src/server.js line 701). -/
def readyDevices (devices : List Device) : List Device :=
  devices.filter (fun d => jsToLower d.status == "device")

/-! POST /api/execute targeting (src/server.js lines 699-732) -/

/-- Outcome of the strict targeting cascade of the POST /api/execute
handler. -/
inductive ExecResolution where
  /-- Early return `{success:false, error:'DEVICE_DISCONNECTED',
  disconnectedSerial, availableDevices}` (lines 711-717). -/
  | disconnected (disconnectedSerial : String) (availableDevices : List String)
  /-- Early return `{success:false, error:'NO_DEVICE'}` (line 720). -/
  | noDevice
  /-- Early return `{success:false, error:'MULTIPLE_DEVICES',
  availableDevices}` (lines 726-731). -/
  | multipleDevices (availableDevices : List String)
  /-- A single target device was resolved; the command is executed
  against exactly this device (line 734 onward). -/
  | target (d : Device)
deriving DecidableEq, Repr

/-- `(targetSerial || userConfig?.serial || '').trim().toLowerCase()`
(src/server.js line 700); the empty string models a JS falsy value
(absent/empty). -/
def requestedSerialOf (targetSerial sessionSerial : String) : String :=
  jsToLower (jsTrim (if targetSerial == "" then sessionSerial else targetSerial))

/-- The targeting logic of POST /api/execute (src/server.js lines
699-732).  `targetSerial` is the request-body serial and
`sessionSerial` the session's saved serial.  Mirrors the strict
no-fallback cascade: explicit/saved serial first (matched
case-insensitively against ready devices, `DEVICE_DISCONNECTED` when
absent), then the 0 / 1 / many case analysis on ready devices. -/
def resolveExecTarget (devices : List Device)
    (targetSerial sessionSerial : String) : ExecResolution :=
  let requestedSerial := requestedSerialOf targetSerial sessionSerial
  let ready := readyDevices devices
  if requestedSerial != "" then
    match devices.find? (fun d =>
        jsToLower d.id == requestedSerial && jsToLower d.status == "device") with
    | some d => .target d
    | none => .disconnected requestedSerial (ready.map (·.id))
  else if ready.length == 0 then
    .noDevice
  else if ready.length == 1 then
    match ready with
    | d :: _ => .target d
    | [] => .noDevice
  else
    .multipleDevices (ready.map (·.id))

example :
    resolveExecTarget [⟨"ABC123", "device"⟩, ⟨"XYZ999", "unauthorized"⟩] "" ""
      = .target ⟨"ABC123", "device"⟩ := by
  decide

/-! Claim C1 (corrected) -/

/-- Claim C1, counterexample.  The claim requires `disconnectedSerial = S`
for the session serial `S`; the handler returns the trimmed, lowercased
form of `S` (src/server.js line 700 stores `requestedSerial`, line 715
echoes it).  With session serial `"GONE1"` and ready list `["ABC123"]`
the response carries `disconnectedSerial = "gone1"`, not `"GONE1"`,
contradicting the spec's end-to-end scenario. -/
theorem execute_disconnected_lowercases_serial :
    resolveExecTarget [⟨"ABC123", "device"⟩] "" "GONE1"
      = .disconnected "gone1" ["ABC123"]
    ∧ ("gone1" : String) ≠ "GONE1" := by
  constructor
  · decide
  · decide

/-- Claim C1, amended: whenever an explicit `targetSerial` or the
session's saved serial is set (nonempty after trim/lowercase) and no
ready device's id matches it case-insensitively, POST /api/execute
resolves to `DEVICE_DISCONNECTED` carrying the trimmed lowercased
serial and exactly the ids of the ready devices; no target device is
ever chosen (no silent fallback). -/
theorem execute_disconnected_no_fallback (devices : List Device)
    (targetSerial sessionSerial : String)
    (hq : requestedSerialOf targetSerial sessionSerial ≠ "")
    (habsent : ∀ d ∈ devices,
      ¬(jsToLower d.id = requestedSerialOf targetSerial sessionSerial
        ∧ jsToLower d.status = "device")) :
    resolveExecTarget devices targetSerial sessionSerial
      = .disconnected (requestedSerialOf targetSerial sessionSerial)
          ((readyDevices devices).map (·.id)) := by
  have hfind : devices.find? (fun d =>
      jsToLower d.id == requestedSerialOf targetSerial sessionSerial
        && jsToLower d.status == "device") = none := by
    rw [List.find?_eq_none]
    intro d hd
    have := habsent d hd
    simp only [Bool.and_eq_true, beq_iff_eq, not_and] at this ⊢
    intro h1 h2
    exact this h1 h2
  simp only [resolveExecTarget, hfind, bne_iff_ne, ne_eq, hq,
    not_false_eq_true, if_true]

/-- Claim C1, witness for the amended theorem at the spec's scenario. -/
theorem execute_disconnected_no_fallback_witness :
    resolveExecTarget [⟨"ABC123", "device"⟩] "" "GONE1"
      = .disconnected "gone1" ["ABC123"] := by
  have h := execute_disconnected_no_fallback [⟨"ABC123", "device"⟩]
    "" "GONE1" (by decide) (by decide)
  simpa using h

/-! Claim C2 (confirmed) -/

/-- Claim C2: with no explicit targetSerial and no session serial, the
POST /api/execute target resolution is the 0 / 1 / many case analysis
on ready devices: zero ready gives NO_DEVICE, exactly one ready gives
that device as the target, two or more ready gives MULTIPLE_DEVICES
listing exactly the ids of the ready devices. -/
theorem execute_auto_target_cases (devices : List Device) :
    (readyDevices devices = [] →
      resolveExecTarget devices "" "" = .noDevice)
    ∧ (∀ d, readyDevices devices = [d] →
      resolveExecTarget devices "" "" = .target d)
    ∧ (∀ d1 d2 rest, readyDevices devices = d1 :: d2 :: rest →
      resolveExecTarget devices "" "" =
        .multipleDevices ((d1 :: d2 :: rest).map (·.id))) := by
  have hq : requestedSerialOf "" "" = "" := by decide
  refine ⟨?_, ?_, ?_⟩
  · intro h
    simp [resolveExecTarget, hq, h]
  · intro d h
    simp [resolveExecTarget, hq, h]
  · intro d1 d2 rest h
    simp [resolveExecTarget, hq, h]

/-- Claim C2, witness: all three cases at concrete device lists. -/
theorem execute_auto_target_cases_witness :
    resolveExecTarget [⟨"ABC123", "unauthorized"⟩] "" "" = .noDevice
    ∧ resolveExecTarget [⟨"ABC123", "device"⟩, ⟨"XYZ999", "unauthorized"⟩] "" ""
        = .target ⟨"ABC123", "device"⟩
    ∧ resolveExecTarget [⟨"A1", "device"⟩, ⟨"B2", "device"⟩] "" ""
        = .multipleDevices ["A1", "B2"] :=
  ⟨(execute_auto_target_cases _).1 (by decide),
   (execute_auto_target_cases _).2.1 ⟨"ABC123", "device"⟩ (by decide),
   (execute_auto_target_cases _).2.2 ⟨"A1", "device"⟩ ⟨"B2", "device"⟩ []
     (by decide)⟩

/-! Auto-root elevation state (GET /api/device-status, src/server.js
lines 422-465)

`global.rootStatus` maps a device key `binary_serial` to `'pending'`
or `'done'`; an absent key is the `unknown` state. -/

/-- Elevation state of one device key in `global.rootStatus`:
absent (`unknown`), `'pending'`, or `'done'`. -/
inductive RootState where
  | unknown
  | pending
  | done
deriving DecidableEq, Repr

/-! Concurrent status evaluations (claims C3 and C8)

The auto-root block reads `global.rootStatus.get(serialKey)` (line
428), then `await`s the `whoami` probe (line 435) — a suspension point
of the event loop — and only at resumption writes `'done'` (line 440)
or writes `'pending'` and issues the elevation command (lines
443-446), in either case without re-reading the map.  We model two
concurrent GET /api/device-status evaluations, A and B, over the same
device key as an interleaving of these atomic phases; a single
evaluation is the special case in which only A's events occur. -/

/-- Where one handler's auto-root block stands for the key. -/
inductive HandlerPhase where
  /-- About to run the guard at lines 428-431. -/
  | ready
  /-- Passed the guard with the key unseen; suspended on `whoami`. -/
  | waitingWhoami
  /-- Done with the key (skipped, marked done, or marked pending). -/
  | finished
deriving DecidableEq, Repr

/-- Global state for one device key under two concurrent status
evaluations: the `rootStatus` entry, both handlers' phases, the number
of background elevation tasks in flight, and the number of elevation
(`root`) commands ever issued for the key. -/
structure ConcRootState where
  root : RootState
  pcA : HandlerPhase
  pcB : HandlerPhase
  inflight : Nat
  rootCmdsIssued : Nat
deriving DecidableEq, Repr

/-- Both handlers about to inspect a never-seen ready device. -/
def concInit : ConcRootState := ⟨.unknown, .ready, .ready, 0, 0⟩

/-- Handler identity. -/
inductive Handler where
  | A
  | B
deriving DecidableEq, Repr

def pcOf (st : ConcRootState) : Handler → HandlerPhase
  | .A => st.pcA
  | .B => st.pcB

def setPc (st : ConcRootState) : Handler → HandlerPhase → ConcRootState
  | .A, p => ⟨st.root, p, st.pcB, st.inflight, st.rootCmdsIssued⟩
  | .B, p => ⟨st.root, st.pcA, p, st.inflight, st.rootCmdsIssued⟩

/-- Scheduler events: which handler runs which atomic phase next. -/
inductive ConcEvent where
  /-- Handler `h` runs the synchronous guard (lines 428-431): if the
  key is `'done'` or `'pending'` it skips; otherwise it starts the
  `whoami` probe and suspends. -/
  | check (h : Handler)
  /-- Handler `h`'s `whoami` resolves with `isRoot`; the handler then
  synchronously either marks `'done'` (line 440) or marks `'pending'`
  and issues the elevation command (lines 443-446) — with no re-read
  of `rootStatus` in between. -/
  | whoamiReturns (h : Handler) (isRoot : Bool)
  /-- A background elevation task completes and writes `'done'`
  (lines 451-459). -/
  | complete
deriving DecidableEq, Repr

/-- One interleaving step of the two concurrent evaluations. -/
def concStep (st : ConcRootState) : ConcEvent → Option ConcRootState
  | .check h =>
    if pcOf st h = .ready then
      if st.root = .unknown then some (setPc st h .waitingWhoami)
      else some (setPc st h .finished)
    else none
  | .whoamiReturns h isRoot =>
    if pcOf st h = .waitingWhoami then
      let st' := setPc st h .finished
      if isRoot then
        some ⟨.done, st'.pcA, st'.pcB, st'.inflight, st'.rootCmdsIssued⟩
      else
        some ⟨.pending, st'.pcA, st'.pcB, st'.inflight + 1,
          st'.rootCmdsIssued + 1⟩
    else none
  | .complete =>
    match st.inflight with
    | 0 => none
    | m + 1 => some ⟨.done, st.pcA, st.pcB, m, st.rootCmdsIssued⟩

/-- Run a schedule of interleaving steps. -/
def concRun (st : ConcRootState) : List ConcEvent → Option ConcRootState
  | [] => some st
  | e :: es =>
    match concStep st e with
    | none => none
    | some st' => concRun st' es

/-! Claim C8 (code_bug) -/

/-- Claim C8 fails on the code: because the `rootStatus` guard read and
the `'pending'` write are separated by the awaited `whoami`
(src/server.js lines 428-446), the schedule in which both evaluations
run their guard before either `whoami` resolves is a valid interleaving
— and it issues the elevation command twice for the same device key,
where the claim (and spec sections 3, 4.3, 9) demand exactly one. -/
theorem concurrent_status_double_root :
    (concRun concInit
      [.check .A, .check .B,
       .whoamiReturns .A false, .whoamiReturns .B false]).map
      (·.rootCmdsIssued) = some 2 := by
  decide

/-! Claim C3 (corrected) -/

theorem setPc_root (st : ConcRootState) (h : Handler) (p : HandlerPhase) :
    (setPc st h p).root = st.root := by
  cases h <;> rfl

/-- Claim C3, counterexample.  Both prohibitions of the claim fail on
the code.  (i) Skip: when the first probe finds the device already
elevated (`whoami` = `root`, src/server.js lines 438-440), the key
moves straight from absent/unknown to `'done'` in one step, never
being `'pending'` (first two runs: after the guard the key is still
unknown, after the probe resolution it is done).  (ii) Revert: the
guard read (line 428) and the `'pending'` write (line 443) are
separated by the awaited `whoami` with no re-read of the map, so with
two overlapping evaluations, after A's elevation chain has marked the
key `'done'`, B's delayed `whoami` resumption (the probe is disrupted
by the adbd restart that `root` causes, so it does not answer `root`)
overwrites `'done'` with `'pending'` — a step back from done to an
earlier state (last two runs). -/
theorem rootStatus_transitions_violated :
    concRun concInit [.check .A]
      = some ⟨.unknown, .waitingWhoami, .ready, 0, 0⟩
    ∧ concRun concInit [.check .A, .whoamiReturns .A true]
      = some ⟨.done, .finished, .ready, 0, 0⟩
    ∧ concRun concInit
        [.check .A, .check .B, .whoamiReturns .A false, .complete]
      = some ⟨.done, .finished, .waitingWhoami, 0, 1⟩
    ∧ concRun concInit
        [.check .A, .check .B, .whoamiReturns .A false, .complete,
         .whoamiReturns .B false]
      = some ⟨.pending, .finished, .finished, 1, 2⟩ := by
  refine ⟨?_, ?_, ?_, ?_⟩ <;> decide

/-- Claim C3, amended: the root-status entry of a device key is never
deleted and never reset to the unseen/unknown state — every step of
the auto-root block either leaves the entry unchanged or writes one of
the two seen states `'pending'`/`'done'`, so a key once seen can never
become unseen again.  (No stronger ordering holds on the code: the
first write may be `'done'` directly when the device is already
elevated, and under overlapping evaluations a stale probe resumption
can overwrite `'done'` with `'pending'`, as the counterexample
shows.) -/
theorem rootStatus_never_unseen_again (st : ConcRootState) (e : ConcEvent)
    (st' : ConcRootState) (h : concStep st e = some st') :
    (st'.root = st.root ∨ st'.root = .pending ∨ st'.root = .done)
    ∧ (st.root ≠ .unknown → st'.root ≠ .unknown) := by
  cases e with
  | check hd =>
    simp only [concStep] at h
    by_cases h1 : pcOf st hd = .ready
    · rw [if_pos h1] at h
      by_cases h2 : st.root = .unknown
      · rw [if_pos h2] at h
        simp only [Option.some.injEq] at h
        subst h
        refine ⟨Or.inl (setPc_root st hd .waitingWhoami), fun hs => ?_⟩
        rw [setPc_root]
        exact hs
      · rw [if_neg h2] at h
        simp only [Option.some.injEq] at h
        subst h
        refine ⟨Or.inl (setPc_root st hd .finished), fun hs => ?_⟩
        rw [setPc_root]
        exact hs
    · rw [if_neg h1] at h
      simp at h
  | whoamiReturns hd isRoot =>
    simp only [concStep] at h
    by_cases h1 : pcOf st hd = .waitingWhoami
    · rw [if_pos h1] at h
      cases isRoot with
      | false =>
        simp only [Bool.false_eq_true, if_false, Option.some.injEq] at h
        subst h
        exact ⟨Or.inr (Or.inl rfl), fun _ hc => RootState.noConfusion hc⟩
      | true =>
        simp only [if_true, Option.some.injEq] at h
        subst h
        exact ⟨Or.inr (Or.inr rfl), fun _ hc => RootState.noConfusion hc⟩
    · rw [if_neg h1] at h
      simp at h
  | complete =>
    simp only [concStep] at h
    rcases hn : st.inflight with _ | m
    · rw [hn] at h
      simp at h
    · rw [hn] at h
      simp only [Option.some.injEq] at h
      subst h
      exact ⟨Or.inr (Or.inr rfl), fun _ hc => RootState.noConfusion hc⟩

/-- Claim C3, witness: a guard step over an already-done key keeps the
key seen (it stays `'done'`). -/
theorem rootStatus_never_unseen_again_witness :
    (⟨.done, .finished, .finished, 0, 0⟩ : ConcRootState).root
      ≠ RootState.unknown :=
  (rootStatus_never_unseen_again ⟨.done, .finished, .ready, 0, 0⟩
    (.check .B) ⟨.done, .finished, .finished, 0, 0⟩ (by decide)).2
    (by decide)

/-! Detail cache (GET /api/device-status, src/server.js lines
467-611)

The expensive diagnostic fetch is modelled parametrically: `fetched`
stands for the `extraInfo` object as it is after the parallel queries
and their parsing have mutated it (lines 491-587).  The handler's
decisions — fresh-cache early return (lines 481-489), the
`fetchSuccess` test (lines 586-587), overwrite-on-success
(line 596), serve-stale-on-failure (lines 600-602) — are modelled
exactly. -/

/-- The `extraInfo` snapshot (defaults at lines 467-471; `swVersion`
joins at line 508, the empty string standing for JS `undefined`). -/
structure ExtraInfo where
  imei : String
  serviceState : String
  region : String
  isServicePass : Bool
  radioOn : Bool
  simState : Int
  simStateText : String
  swVersion : String
deriving DecidableEq, Repr

/-- The all-default baseline of lines 467-471. -/
def defaultExtraInfo : ExtraInfo :=
  ⟨"-", "-", "-", false, false, -1, "Unknown", ""⟩

/-- `fetchSuccess` (lines 586-587): at least one of imei, simState,
serviceState, radioOn differs from its default. -/
def fetchSuccess (e : ExtraInfo) : Bool :=
  e.imei != "-" || e.simState != -1 || e.serviceState != "-" || e.radioOn

/-- 10-second TTL for device details (line 223). -/
def DETAIL_TTL : Int := 10000

/-- One `detailCache` entry: `{ data, timestamp }` (line 596). -/
structure DetailCacheEntry where
  data : ExtraInfo
  timestamp : Int
deriving DecidableEq, Repr

/-- The fetch-and-update tail (lines 491-610) for one cache key, run
when the fresh-cache early return did not fire: cache the fetched
snapshot if `fetchSuccess`, else serve the stale entry unchanged if
one exists, else serve the (default-ish) fetched object without
creating an entry.  Returns (extraInfo served, cache entry for the key
afterwards). -/
def detailFetchTail (cached : Option DetailCacheEntry) (now : Int)
    (fetched : ExtraInfo) : ExtraInfo × Option DetailCacheEntry :=
  if fetchSuccess fetched then
    (fetched, some ⟨fetched, now⟩)
  else
    match cached with
    | some c => (c.data, some c)
    | none => (fetched, none)

/-- The detail portion of GET /api/device-status for one device key:
early return of a fresh cached snapshot (lines 481-489), otherwise the
fetch-and-update tail.  The third component records whether the
diagnostic queries were issued at all. -/
def detailStep (cached : Option DetailCacheEntry) (now : Int)
    (fetched : ExtraInfo) : ExtraInfo × Option DetailCacheEntry × Bool :=
  match cached with
  | some c =>
    if now - c.timestamp < DETAIL_TTL then
      (c.data, some c, false)
    else
      let (served, entry) := detailFetchTail cached now fetched
      (served, entry, true)
  | none =>
    let (served, entry) := detailFetchTail cached now fetched
    (served, entry, true)

/-! Claim C4 (confirmed) -/

/-- Claim C4: if the detail cache holds a prior successful snapshot `A`
for a device key and the next fetch for that key fails (nothing parsed,
so the `fetchSuccess` test of lines 586-587 is false), the handler
serves `A` as `extraInfo` and the cache entry still holds `A`
afterwards — a failed fetch never overwrites or deletes a cached
snapshot. -/
theorem detail_cache_survives_failed_fetch (A : ExtraInfo) (t now : Int)
    (fetched : ExtraInfo) (hstale : DETAIL_TTL ≤ now - t)
    (hfail : fetchSuccess fetched = false) :
    detailStep (some ⟨A, t⟩) now fetched = (A, some ⟨A, t⟩, true) := by
  simp [detailStep, detailFetchTail, hfail, not_lt.mpr hstale]

/-- Claim C4, witness: a concrete successful snapshot survives a fetch
that parsed nothing. -/
theorem detail_cache_survives_failed_fetch_witness :
    detailStep (some ⟨⟨"355123", "In Service", "EU (902)", true, true, 5,
        "Ready", "1.0"⟩, 0⟩) 10000 defaultExtraInfo
      = (⟨"355123", "In Service", "EU (902)", true, true, 5, "Ready", "1.0"⟩,
         some ⟨⟨"355123", "In Service", "EU (902)", true, true, 5,
           "Ready", "1.0"⟩, 0⟩, true) :=
  detail_cache_survives_failed_fetch _ 0 10000 defaultExtraInfo
    (by decide) (by decide)

/-! Device discovery cache (`getCachedDevices`, src/server.js
lines 226-254) -/

/-- Normalized result of `execAsync` (lines 304-319): never throws. -/
structure ExecResult where
  success : Bool
  stdout : String
  stderr : String
deriving DecidableEq, Repr

/-- 3-second TTL for the device list (line 222). -/
def CACHE_TTL : Int := 3000

/-- `deviceCache = { devices, timestamp }` (line 220). -/
structure DeviceCache where
  devices : List Device
  timestamp : Int
deriving DecidableEq, Repr

/-- The line scan of `getCachedDevices` (lines 235-251): skip blank and
daemon-noise lines, start collecting after the header line, then take
whitespace-separated `(id, status)` pairs. -/
def parseDeviceLines : List String → Bool → List Device
  | [], _ => []
  | line :: rest, listStarted =>
    let raw := jsTrim line
    if raw == "" || jsIncludes (jsToLower raw) "daemon" then
      parseDeviceLines rest listStarted
    else if jsIncludes (jsToLower raw) "list of devices attached" then
      parseDeviceLines rest true
    else if listStarted then
      match jsSplitWs raw with
      | p0 :: p1 :: _ => ⟨jsTrim p0, jsTrim p1⟩ :: parseDeviceLines rest true
      | _ => parseDeviceLines rest listStarted
    else
      parseDeviceLines rest listStarted

/-- Parse `adb devices` stdout (lines 234-251; `if (result.stdout)`
makes empty stdout yield no devices). -/
def parseAdbDevices (stdout : String) : List Device :=
  if stdout == "" then [] else parseDeviceLines (jsSplitLines stdout) false

example :
    parseAdbDevices
        "List of devices attached\nABC123\tdevice\nXYZ999\tunauthorized\n"
      = [⟨"ABC123", "device"⟩, ⟨"XYZ999", "unauthorized"⟩] := by
  decide

/-- `getCachedDevices` (lines 226-254).  `result` stands for what the
enumeration command would return if issued; the third component
records whether it was issued.  The freshness guard (line 228)
requires both a young timestamp and a nonempty cached list. -/
def getCachedDevices (cache : DeviceCache) (now : Int) (result : ExecResult) :
    List Device × DeviceCache × Bool :=
  if now - cache.timestamp < CACHE_TTL ∧ 0 < cache.devices.length then
    (cache.devices, cache, false)
  else
    let devices := parseAdbDevices result.stdout
    (devices, ⟨devices, now⟩, true)

/-! Claim C5 (corrected) -/

/-- Claim C5, counterexample.  A failed enumeration (here: exec failure
with empty stdout) at time 0 does return `[]` and does update the cache
to `([], 0)` — but a second call one millisecond later, well inside the
3000 ms TTL, issues the enumeration command again (third component
`true`), because the freshness guard at line 228 also requires
`deviceCache.devices.length > 0`.  The claim's "no further enumeration
command is issued within the cache TTL window" is false. -/
theorem getCachedDevices_no_failure_throttle :
    getCachedDevices ⟨[], 0⟩ 0 ⟨false, "", ""⟩ = ([], ⟨[], 0⟩, true)
    ∧ (getCachedDevices ⟨[], 0⟩ 1 ⟨false, "", ""⟩).2.2 = true := by
  constructor
  · decide
  · decide

/-- Claim C5, amended: when the cache does not serve (stale or empty)
and the enumeration's stdout has no parseable device lines (in
particular whenever the command fails yielding no stdout),
`getCachedDevices` returns the empty list without throwing and updates
the cache with the empty list and the current timestamp; but a
subsequent call within the TTL issues the enumeration command again,
because the freshness guard additionally requires a nonempty cached
device list. -/
theorem getCachedDevices_failure_caches_empty (cache : DeviceCache)
    (now now' : Int) (r r' : ExecResult)
    (hmiss : ¬(now - cache.timestamp < CACHE_TTL ∧ 0 < cache.devices.length))
    (hnoparse : parseAdbDevices r.stdout = []) :
    getCachedDevices cache now r = ([], ⟨[], now⟩, true)
    ∧ (getCachedDevices ⟨[], now⟩ now' r').2.2 = true := by
  constructor
  · simp [getCachedDevices, hmiss, hnoparse]
  · simp [getCachedDevices]

/-- Claim C5, witness: the amended behaviour at a concrete failed
enumeration. -/
theorem getCachedDevices_failure_caches_empty_witness :
    getCachedDevices ⟨[], 0⟩ 0 ⟨false, "", ""⟩ = ([], ⟨[], 0⟩, true)
    ∧ (getCachedDevices ⟨[], 0⟩ 1 ⟨true, "", ""⟩).2.2 = true :=
  getCachedDevices_failure_caches_empty ⟨[], 0⟩ 0 1 ⟨false, "", ""⟩
    ⟨true, "", ""⟩ (by decide) (by decide)

/-! DLT forwarding bridge (src/server.js lines 137-217, 957-1076)

`dltProxies : Map clientId -> { proxy, serial, publicPort,
internalPort, binary }` and `usedDltPorts : Set` become association
lists; listener binds are an oracle `bindOk`; device-side
`adb forward` adds/removes are events in a ledger. -/

/-- One `dltProxies` entry (line 137; the live `net.Server` handle is
not part of the bookkeeping we reason about). -/
structure DltEntry where
  serial : String
  publicPort : Nat
  internalPort : Nat
  binary : String
deriving DecidableEq, Repr

/-- The bridge manager's process-wide bookkeeping: `dltProxies`
(line 139) and `usedDltPorts` (line 142). -/
structure DltState where
  proxies : List (String × DltEntry)
  usedPorts : List Nat
deriving DecidableEq, Repr

/-- `dltProxies.get(clientId)`. -/
def lookupProxy (st : DltState) (clientId : String) : Option DltEntry :=
  (st.proxies.find? (fun p => p.1 == clientId)).map (·.2)

/-- `cleanupDltProxy(clientId)` (lines 192-217).  `teardownFails`
models the try block at lines 196-210 throwing (listener close or
forward removal); the catch swallows it, and the map/set deletions at
lines 214-215 sit outside the try, so the bookkeeping result never
depends on it.  Returns the function's return value (0 or 1) and the
updated bookkeeping. -/
def cleanupDltProxy (st : DltState) (clientId : String)
    (_teardownFails : Bool) : Nat × DltState :=
  match lookupProxy st clientId with
  | none => (0, st)
  | some e =>
    (1, ⟨st.proxies.filter (fun p => p.1 != clientId),
         st.usedPorts.filter (fun q => q != e.publicPort)⟩)

/-- Response of POST /api/tools/stop-dlt (lines 1071-1076). -/
structure StopDltResponse where
  success : Bool
  cleaned : Nat
deriving DecidableEq, Repr

/-- The POST /api/tools/stop-dlt handler (lines 1071-1076): always
responds `success:true` with the cleanup count. -/
def stopDlt (st : DltState) (clientId : String) (teardownFails : Bool) :
    StopDltResponse × DltState :=
  let r := cleanupDltProxy st clientId teardownFails
  (⟨true, r.1⟩, r.2)

/-- Device-side forward ledger entries: `adb forward tcp:internalPort
tcp:3490` (line 1015) and `adb forward --remove tcp:internalPort`
(line 1024). -/
inductive FwdEv where
  | add (internalPort : Nat)
  | remove (internalPort : Nat)
deriving DecidableEq, Repr

/-- Replay the forward ledger: which device-side forwards are live. -/
def liveForwardsAux (live : List Nat) : List FwdEv → List Nat
  | [] => live
  | .add p :: rest => liveForwardsAux (live ++ [p]) rest
  | .remove p :: rest => liveForwardsAux (live.filter (fun q => q != p)) rest

def liveForwards (evs : List FwdEv) : List Nat :=
  liveForwardsAux [] evs

/-- What the allocation loop did: the assigned public port (if any),
the candidate ports where a listener bind was attempted, and the
device-side forward ledger, in order. -/
structure AllocOutcome where
  assigned : Option Nat
  probes : List Nat
  events : List FwdEv
deriving DecidableEq, Repr

/-- The port allocation loop of POST /api/tools/launch-dlt (lines
999-1028), fuelled by the remaining attempts (10 at the top):
candidates are `requestedPort + attempt`; stop past 65535; skip ports
tracked in `usedDltPorts`; otherwise create the device-side forward,
try to bind the public listener (`bindOk`), and on failure remove the
forward again and move to the next candidate. -/
def allocFrom (used : List Nat) (bindOk : Nat → Bool) :
    Nat → Nat → AllocOutcome
  | _, 0 => ⟨none, [], []⟩
  | tryPort, fuel + 1 =>
    if 65535 < tryPort then ⟨none, [], []⟩
    else if used.contains tryPort then
      allocFrom used bindOk (tryPort + 1) fuel
    else if bindOk tryPort then
      ⟨some tryPort, [tryPort], [.add (tryPort + 1000)]⟩
    else
      let rest := allocFrom used bindOk (tryPort + 1) fuel
      ⟨rest.assigned, tryPort :: rest.probes,
        .add (tryPort + 1000) :: .remove (tryPort + 1000) :: rest.events⟩

/-- `for (let attempt = 0; attempt < 10; attempt++)` (line 1003). -/
def allocatePort (used : List Nat) (requestedPort : Nat)
    (bindOk : Nat → Bool) : AllocOutcome :=
  allocFrom used bindOk requestedPort 10

/-- Responses of POST /api/tools/launch-dlt. -/
inductive LaunchResult where
  /-- Fresh bridge: `{success:true, port, autoAssigned}`
  (lines 1056-1063). -/
  | ok (port : Nat) (autoAssigned : Bool)
  /-- Same device and port already bridged for this client: refresh
  and reuse (lines 981-992). -/
  | reused (port : Nat)
  /-- HTTP 400 `'No device selected'` (line 970). -/
  | errNoDevice
  /-- HTTP 400 `'Invalid port number'` (line 975). -/
  | errInvalidPort
  /-- HTTP 500 `'Could not find a free port starting from ...'`
  (lines 1030-1035). -/
  | errNoFreePort (requestedPort : Nat)
deriving DecidableEq, Repr

/-- Allocation tail of the launch handler (lines 999-1063): run the
loop against the tracked ports; exhaustion is the single structured
500 error; success records the bridge in `dltProxies` (`Map.set`,
line 1041) and the port in `usedDltPorts` (line 1040). -/
def launchAlloc (st : DltState) (clientId serial binary : String)
    (reqP : Nat) (bindOk : Nat → Bool) :
    LaunchResult × DltState × AllocOutcome :=
  let out := allocatePort st.usedPorts reqP bindOk
  match out.assigned with
  | none => (.errNoFreePort reqP, st, out)
  | some p =>
    (.ok p (p != reqP),
     ⟨(clientId, ⟨serial, p, p + 1000, binary⟩)
        :: st.proxies.filter (fun q => q.1 != clientId),
      p :: st.usedPorts⟩,
     out)

/-- The POST /api/tools/launch-dlt handler (lines 957-1068).
`userSerial` is the session's saved serial (`none` = no session
config, `""` = empty selection; both fail the `userConfig &&
userConfig.serial` guard at line 966).  `requestedPort` is
`parseInt(dltPort) || 3490` and is validated at line 974.  An existing
bridge for the same device and port is reused (only the device-side
forward is refreshed); a different one is torn down first via
`cleanupDltProxy` (line 996). -/
def launchDlt (st : DltState) (clientId : String)
    (userSerial : Option String) (binary : String) (requestedPort : Int)
    (bindOk : Nat → Bool) : LaunchResult × DltState × AllocOutcome :=
  match userSerial with
  | none => (.errNoDevice, st, ⟨none, [], []⟩)
  | some serial =>
    if serial == "" then (.errNoDevice, st, ⟨none, [], []⟩)
    else if requestedPort ≤ 0 || 65535 < requestedPort then
      (.errInvalidPort, st, ⟨none, [], []⟩)
    else
      let reqP := requestedPort.toNat
      match lookupProxy st clientId with
      | some e =>
        if e.serial == serial && e.publicPort == reqP then
          (.reused reqP, st, ⟨none, [], [.add (reqP + 1000)]⟩)
        else
          launchAlloc (cleanupDltProxy st clientId false).2 clientId serial
            binary reqP bindOk
      | none => launchAlloc st clientId serial binary reqP bindOk

theorem allocFrom_spec (used : List Nat) (bindOk : Nat → Bool) :
    ∀ fuel p,
      (∀ q, (allocFrom used bindOk p fuel).assigned = some q →
        used.contains q = false ∧ bindOk q = true ∧ p ≤ q ∧ q < p + fuel)
      ∧ (∀ q ∈ (allocFrom used bindOk p fuel).probes,
        used.contains q = false ∧ p ≤ q ∧ q < p + fuel)
      ∧ (allocFrom used bindOk p fuel).probes.length ≤ fuel := by
  intro fuel
  induction fuel with
  | zero =>
    intro p
    simp [allocFrom]
  | succ n ih =>
    intro p
    by_cases h1 : 65535 < p
    · simp [allocFrom, h1]
    · by_cases h2 : used.contains p
      · have hrec := ih (p + 1)
        simp only [allocFrom, if_neg h1, if_pos h2]
        refine ⟨fun q hq => ?_, fun q hq => ?_, ?_⟩
        · obtain ⟨c1, c2, c3, c4⟩ := hrec.1 q hq
          exact ⟨c1, c2, by omega, by omega⟩
        · obtain ⟨c1, c3, c4⟩ := hrec.2.1 q hq
          exact ⟨c1, by omega, by omega⟩
        · exact Nat.le_trans hrec.2.2 (Nat.le_succ n)
      · by_cases h3 : bindOk p
        · simp only [allocFrom, if_neg h1, if_neg h2, if_pos h3]
          refine ⟨fun q hq => ?_, fun q hq => ?_, by simp⟩
          · simp only [Option.some.injEq] at hq
            subst hq
            exact ⟨by simpa using h2, h3, Nat.le_refl _, by omega⟩
          · simp only [List.mem_singleton] at hq
            subst hq
            exact ⟨by simpa using h2, Nat.le_refl _, by omega⟩
        · have hrec := ih (p + 1)
          simp only [allocFrom, if_neg h1, if_neg h2, if_neg h3]
          refine ⟨fun q hq => ?_, fun q hq => ?_, ?_⟩
          · obtain ⟨c1, c2, c3, c4⟩ := hrec.1 q hq
            exact ⟨c1, c2, by omega, by omega⟩
          · simp only [List.mem_cons] at hq
            rcases hq with rfl | hq
            · exact ⟨by simpa using h2, Nat.le_refl _, by omega⟩
            · obtain ⟨c1, c3, c4⟩ := hrec.2.1 q hq
              exact ⟨c1, by omega, by omega⟩
          · simpa using Nat.succ_le_succ hrec.2.2

theorem allocFrom_live (used : List Nat) (bindOk : Nat → Bool) :
    ∀ fuel p,
      liveForwards (allocFrom used bindOk p fuel).events
        = (match (allocFrom used bindOk p fuel).assigned with
           | some q => [q + 1000]
           | none => []) := by
  intro fuel
  induction fuel with
  | zero =>
    intro p
    simp [allocFrom, liveForwards, liveForwardsAux]
  | succ n ih =>
    intro p
    by_cases h1 : 65535 < p
    · simp [allocFrom, h1, liveForwards, liveForwardsAux]
    · by_cases h2 : used.contains p
      · simpa only [allocFrom, if_neg h1, if_pos h2] using ih (p + 1)
      · by_cases h3 : bindOk p
        · simp only [allocFrom, if_neg h1, if_neg h2, if_pos h3]
          simp [liveForwards, liveForwardsAux]
        · have hrec := ih (p + 1)
          simp only [allocFrom, if_neg h1, if_neg h2, if_neg h3]
          simpa [liveForwards, liveForwardsAux] using hrec

/-! Claim C6 (confirmed) -/

/-- Claim C6: the launch-dlt allocation loop never binds a public port
tracked in `usedDltPorts` (neither the assigned port nor any probed
candidate is tracked), probes at most 10 sequential candidates in
`[requestedPort, requestedPort + 9]`, rolls the device-side forward
back whenever a candidate's listener bind fails (after the loop the
only live forward is the assigned port's, and none on exhaustion), and
on exhaustion the handler returns the single structured
`errNoFreePort` response. -/
theorem launch_dlt_port_allocation (used : List Nat) (req : Nat)
    (bindOk : Nat → Bool) :
    (∀ q, (allocatePort used req bindOk).assigned = some q →
      used.contains q = false ∧ bindOk q = true ∧ req ≤ q ∧ q < req + 10)
    ∧ (∀ q ∈ (allocatePort used req bindOk).probes,
      used.contains q = false ∧ req ≤ q ∧ q < req + 10)
    ∧ (allocatePort used req bindOk).probes.length ≤ 10
    ∧ liveForwards (allocatePort used req bindOk).events
        = (match (allocatePort used req bindOk).assigned with
           | some q => [q + 1000]
           | none => [])
    ∧ (∀ st : DltState, ∀ clientId serial binary, st.usedPorts = used →
        (allocatePort used req bindOk).assigned = none →
        (launchAlloc st clientId serial binary req bindOk).1
          = .errNoFreePort req) := by
  have h := allocFrom_spec used bindOk 10 req
  refine ⟨h.1, h.2.1, h.2.2, allocFrom_live used bindOk 10 req, ?_⟩
  intro st clientId serial binary hused hnone
  subst hused
  simp [launchAlloc, hnone]

/-- Claim C6, witness: requesting port 3490 while 3490 is tracked and
only 3491 binds: 3490 is skipped, 3491 is assigned untracked and
in-range; and a never-binding oracle exhausts into the structured
error. -/
theorem launch_dlt_port_allocation_witness :
    (allocatePort [3490] 3490 (fun p => p == 3491)).assigned = some 3491
    ∧ ([3490].contains 3491 = false ∧ ((fun p => p == 3491) 3491) = true
        ∧ 3490 ≤ 3491 ∧ 3491 < 3490 + 10)
    ∧ (launchAlloc ⟨[], [3490]⟩ "c1" "ABC123" "adb1" 3490
        (fun _ => false)).1 = .errNoFreePort 3490 :=
  ⟨by decide,
   (launch_dlt_port_allocation [3490] 3490 (fun p => p == 3491)).1 3491
     (by decide),
   (launch_dlt_port_allocation [3490] 3490 (fun _ => false)).2.2.2.2
     ⟨[], [3490]⟩ "c1" "ABC123" "adb1" rfl (by decide)⟩

/-! Claim C7 (confirmed) -/

/-- Claim C7: POST /api/tools/stop-dlt for a client with no active
bridge is a no-op: `success:true` with `cleaned = 0`, no exception,
and the proxy map and used-port set are unchanged — whether or not a
teardown would have failed. -/
theorem stop_dlt_without_bridge_noop (st : DltState) (clientId : String)
    (teardownFails : Bool) (h : lookupProxy st clientId = none) :
    stopDlt st clientId teardownFails = (⟨true, 0⟩, st) := by
  simp [stopDlt, cleanupDltProxy, h]

/-- Claim C7, witness: stopping client `c1` when only `c2` has a
bridge. -/
theorem stop_dlt_without_bridge_noop_witness :
    stopDlt ⟨[("c2", ⟨"XYZ999", 4000, 5000, "adb1"⟩)], [4000]⟩ "c1" true
      = (⟨true, 0⟩, ⟨[("c2", ⟨"XYZ999", 4000, 5000, "adb1"⟩)], [4000]⟩) :=
  stop_dlt_without_bridge_noop
    ⟨[("c2", ⟨"XYZ999", 4000, 5000, "adb1"⟩)], [4000]⟩ "c1" true (by decide)

/-! Claim C9 (confirmed) -/

/-- Claim C9: `cleanupDltProxy` for a client with an active bridge
returns 1, removes that client's entry from the proxy map and its
public port from the used-port set, and this bookkeeping does not
depend on whether tearing down the listener or the device-side forward
fails (the try/catch at lines 196-212 swallows such errors; the
deletions at lines 214-215 are outside it). -/
theorem cleanup_dlt_proxy_unconditional (st : DltState) (clientId : String)
    (e : DltEntry) (teardownFails : Bool)
    (h : lookupProxy st clientId = some e) :
    cleanupDltProxy st clientId teardownFails
        = cleanupDltProxy st clientId false
    ∧ (cleanupDltProxy st clientId teardownFails).1 = 1
    ∧ lookupProxy (cleanupDltProxy st clientId teardownFails).2 clientId = none
    ∧ e.publicPort ∉ (cleanupDltProxy st clientId teardownFails).2.usedPorts := by
  have hcl : cleanupDltProxy st clientId teardownFails
      = (1, ⟨st.proxies.filter (fun p => p.1 != clientId),
             st.usedPorts.filter (fun q => q != e.publicPort)⟩) := by
    simp [cleanupDltProxy, h]
  have hfind : (st.proxies.filter (fun p => p.1 != clientId)).find?
      (fun p => p.1 == clientId) = none := by
    rw [List.find?_eq_none]
    intro x hx
    have := (List.mem_filter.mp hx).2
    simpa [bne_iff_ne] using this
  refine ⟨rfl, ?_, ?_, ?_⟩
  · rw [hcl]
  · rw [hcl]
    simp [lookupProxy, hfind]
  · rw [hcl]
    intro hmem
    have := (List.mem_filter.mp hmem).2
    simp [bne_iff_ne] at this

/-- Claim C9, witness: a concrete bridge for `c1` is fully
book-cleaned even with a failing teardown. -/
theorem cleanup_dlt_proxy_unconditional_witness :
    cleanupDltProxy ⟨[("c1", ⟨"ABC123", 3490, 4490, "adb1"⟩)], [3490]⟩
        "c1" true
      = cleanupDltProxy ⟨[("c1", ⟨"ABC123", 3490, 4490, "adb1"⟩)], [3490]⟩
        "c1" false
    ∧ (cleanupDltProxy ⟨[("c1", ⟨"ABC123", 3490, 4490, "adb1"⟩)], [3490]⟩
        "c1" true).1 = 1
    ∧ lookupProxy (cleanupDltProxy
        ⟨[("c1", ⟨"ABC123", 3490, 4490, "adb1"⟩)], [3490]⟩ "c1" true).2
        "c1" = none
    ∧ (3490 : Nat) ∉ (cleanupDltProxy
        ⟨[("c1", ⟨"ABC123", 3490, 4490, "adb1"⟩)], [3490]⟩
        "c1" true).2.usedPorts :=
  cleanup_dlt_proxy_unconditional
    ⟨[("c1", ⟨"ABC123", 3490, 4490, "adb1"⟩)], [3490]⟩ "c1"
    ⟨"ABC123", 3490, 4490, "adb1"⟩ true (by decide)

/-! Claim C10 (confirmed) -/

/-- Claim C10: POST /api/tools/launch-dlt with no selected device
serial (no session config, or an empty serial) returns the HTTP 400
`'No device selected'` response, leaves the bridge bookkeeping
untouched, attempts no listener bind and creates no device-side
forward. -/
theorem launch_dlt_no_serial (st : DltState) (clientId binary : String)
    (requestedPort : Int) (bindOk : Nat → Bool) (userSerial : Option String)
    (h : userSerial = none ∨ userSerial = some "") :
    launchDlt st clientId userSerial binary requestedPort bindOk
      = (.errNoDevice, st, ⟨none, [], []⟩) := by
  rcases h with rfl | rfl
  · simp [launchDlt]
  · simp [launchDlt]

/-- Claim C10, witness: an empty-serial session at a concrete
state. -/
theorem launch_dlt_no_serial_witness :
    launchDlt ⟨[], [3490]⟩ "c1" (some "") "adb1" 3490 (fun _ => true)
      = (.errNoDevice, ⟨[], [3490]⟩, ⟨none, [], []⟩) :=
  launch_dlt_no_serial ⟨[], [3490]⟩ "c1" "adb1" 3490 (fun _ => true)
    (some "") (Or.inr rfl)

end OnlineSanity
